import Mathlib

/-!
Verification development for the systematic engineering framework
(`tools/systematic_engineering_core.py`): a configuration-driven
documentation validator and code generator.

The Python source is shallowly embedded: dataclasses become structures,
the template classes become their `generate` functions, file-system access
is modelled by an explicit `FileSystem` record (directory → markdown files,
and an existence test for cross-reference targets), and `sys.exit(1)` is
modelled by `Except.error 1`.  Python strings are Lean `String`s; scanning
works on `List Char` via `String.data`.

Note one faithfully-kept detail of the source: `_extract_specifications`
splits file content on the two-character sequence backslash-n (the source
reads `content.split('\\n')`, a literal backslash followed by `n`), not on
newline characters; the embedding does the same (`splitOnSeq backslashN`).
-/

/-- Universal traceability ID representation (dataclass `TraceabilityID`;
never instantiated by the engine itself). -/
structure TraceabilityID where
  tier : String
  category : String
  number : Nat
  full_id : String
deriving DecidableEq, Repr

/-- One systematic engineering validation issue (dataclass `ValidationIssue`).
`file_path` and `line_number` default to `none` exactly as in the source. -/
structure ValidationIssue where
  severity : String
  category : String
  message : String
  file_path : Option String := none
  line_number : Option Nat := none
deriving DecidableEq, Repr

/-- One entry of the configuration's `code_generators` mapping.  Every field
read with `dict.get` in the source is an `Option`; list-valued fields read
with a `[]` default are plain lists. -/
structure GeneratorConfig where
  template : Option String := none
  target_struct : Option String := none
  trait_impl : Option String := none
  safety_requirements : List String := []
  traceability_ids : List String := []
  description : Option String := none
  safety_critical : Bool := false
deriving DecidableEq, Repr

/-- The loaded project configuration (the parsed JSON record).  Section 6 of
the design requires `project_name`; `code_generators` keeps the declared
insertion order as an association list. -/
structure Config where
  project_name : String
  code_generators : List (String × GeneratorConfig) := []
  id_format : Option String := none
  cross_reference_targets : List String := []
  required_derivation_fields : List String := []

/-- A markdown document directly under the documentation root. -/
structure MDFile where
  name : String
  content : String
deriving DecidableEq, Repr

/-- The ambient file system, as far as the engine reads it:
`mdFiles dir` is the result of `Path(dir).glob("*.md")` in directory
iteration order, and `fileExists dir name` is `(Path(dir) / name).exists()`. -/
structure FileSystem where
  mdFiles : String → List MDFile
  fileExists : String → String → Bool

/-- A code-generation template is its `generate` method: configuration and
extracted specification windows to rendered text (`CodeTemplate.generate`). -/
abbrev Template := GeneratorConfig → List String → String

/-- `stripSeq needle l` removes `needle` from the front of `l`, when it is
there (helper for substring search and splitting). -/
def stripSeq : List Char → List Char → Option (List Char)
  | [], l => some l
  | _ :: _, [] => none
  | a :: as, b :: bs => if a = b then stripSeq as bs else none

/-- `containsSeq needle hay` decides whether `needle` occurs as a contiguous
subsequence of `hay` (Python's `needle in hay` on strings). -/
def containsSeq (needle : List Char) : List Char → Bool
  | [] => (stripSeq needle ([] : List Char)).isSome
  | c :: rest => (stripSeq needle (c :: rest)).isSome || containsSeq needle rest

/-- Python's `hay_string.__contains__(needle_string)`. -/
def strContains (hay needle : String) : Bool :=
  containsSeq needle.data hay.data

/-- Worker for `splitOnSeq`; the fuel starts at the length of the input, and
each step consumes at least one character, so it never runs out. -/
def splitOnSeqAux (sep : List Char) : Nat → List Char → List Char → List (List Char)
  | _, acc, [] => [acc.reverse]
  | 0, acc, l => [acc.reverse ++ l]
  | fuel + 1, acc, c :: cs =>
    match stripSeq sep (c :: cs) with
    | some rest => acc.reverse :: splitOnSeqAux sep fuel [] rest
    | none => splitOnSeqAux sep fuel (c :: acc) cs

/-- Python's `str.split(sep)` for a non-empty separator: split at each
non-overlapping occurrence of `sep`, scanning left to right. -/
def splitOnSeq (sep l : List Char) : List (List Char) :=
  splitOnSeqAux sep l.length [] l

/-- Python's `sep.join(parts)` at the character-list level. -/
def joinSeq (sep : List Char) : List (List Char) → List Char
  | [] => []
  | [l] => l
  | l :: ls => l ++ sep ++ joinSeq sep ls

/-- The literal two-character sequence the source splits on: the Python file
contains `content.split('\\n')`, i.e. a backslash followed by the letter n,
not a newline character. -/
def backslashN : List Char := ['\\', 'n']

/-- ASCII uppercase, the character class `[A-Z]` of the ID pattern. -/
def isUpperAZ (c : Char) : Bool := 'A' ≤ c && c ≤ 'Z'

/-- ASCII digit, the character class `\d` of the ID pattern (the embedding
restricts Python's Unicode `\d` to ASCII digits). -/
def isDigitC (c : Char) : Bool := '0' ≤ c && c ≤ '9'

/-- Try to match the ID pattern `T\d+-[A-Z]+-\d+` at the head of the input;
on success return the matched text and the remainder.  The pattern's
character classes are disjoint from the dashes, so greedy matching is
maximal munch. -/
def matchIdAt (l : List Char) : Option (List Char × List Char) :=
  match l with
  | 'T' :: rest =>
    let d1 := rest.takeWhile isDigitC
    let r1 := rest.dropWhile isDigitC
    if d1.isEmpty then none else
    match r1 with
    | '-' :: r2 =>
      let u := r2.takeWhile isUpperAZ
      let r3 := r2.dropWhile isUpperAZ
      if u.isEmpty then none else
      match r3 with
      | '-' :: r4 =>
        let d2 := r4.takeWhile isDigitC
        let r5 := r4.dropWhile isDigitC
        if d2.isEmpty then none else
        some ('T' :: d1 ++ '-' :: u ++ '-' :: d2, r5)
      | _ => none
    | _ => none
  | _ => none

/-- Worker for `findall_ids`; fuel starts at the input length and every step
consumes at least one character. -/
def findAllIdsAux : Nat → List Char → List String
  | _, [] => []
  | 0, _ :: _ => []
  | fuel + 1, c :: cs =>
    match matchIdAt (c :: cs) with
    | some (m, rest) => String.mk m :: findAllIdsAux fuel rest
    | none => findAllIdsAux fuel cs

/-- Python's `re.findall(r'T\d+-[A-Z]+-\d+', content)`: the leftmost
non-overlapping matches of the generic ID pattern, in order. -/
def findall_ids (l : List Char) : List String := findAllIdsAux l.length l

/-- `HalImplementationTemplate._build_traceability_comment`.  Note the
source's comment text contains a literal backslash-n (`\\n` in the Python
string), reproduced here verbatim. -/
def HalImplementationTemplate.build_traceability_comment
    (config : GeneratorConfig) (specs : List String) : String :=
  let ids := config.traceability_ids
  if ids.isEmpty then "//! Generated from project specifications"
  else "//! 🔗 " ++ String.intercalate ", " ids ++
    ": Generated Implementation\\n//! AI Traceability: " ++
    specs.headD "Generated from specifications"

/-- `HalImplementationTemplate.generate`: the HAL implementation scaffold.
The rendered text is the source's f-string with `struct_name`, `trait_impl`
and the traceability comment spliced in (braces of the generated Rust are
written as hex escapes). -/
def HalImplementationTemplate.generate : Template := fun config specs =>
  let struct_name := config.target_struct.getD "GenericHalImpl"
  let trait_impl := config.trait_impl.getD "GenericTrait"
  let traceability_comment :=
    HalImplementationTemplate.build_traceability_comment config specs
  "//! Generated HAL Implementation\n//! \n" ++ traceability_comment ++
  "\n\nuse crate::\x7bHalResult, HalError\x7d;\n\n/// Hardware-specific implementation\npub struct " ++
  struct_name ++
  " \x7b\n    initialized: bool,\n    // TODO: Add hardware-specific fields\n\x7d\n\nimpl " ++
  struct_name ++
  " \x7b\n    pub fn new() -> Self \x7b\n        Self \x7b\n            initialized: false,\n        \x7d\n    \x7d\n    \n    pub fn init(&mut self) -> HalResult<()> \x7b\n        // TODO: Initialize hardware\n        self.initialized = true;\n        Ok(())\n    \x7d\n\x7d\n\nimpl " ++
  trait_impl ++
  " for " ++
  struct_name ++
  " \x7b\n    // TODO: Implement trait methods based on specifications\n\x7d\n\n#[cfg(test)]\nmod tests \x7b\n    use super::*;\n    \n    #[test]\n    fn test_initialization() \x7b\n        let mut impl_instance = " ++
  struct_name ++
  "::new();\n        assert!(impl_instance.init().is_ok());\n    \x7d\n\x7d"

/-- `ControlSystemTemplate.generate`: the control-loop scaffold.  The source
reads only `target_struct` from the configuration and ignores `specs`. -/
def ControlSystemTemplate.generate : Template := fun config _specs =>
  let struct_name := config.target_struct.getD "GenericController"
  "//! Generated Control System\n//! \n//! Generated from specifications\n\nuse crate::\x7bHalResult, HalError\x7d;\n\npub struct " ++
  struct_name ++
  " \x7b\n    enabled: bool,\n    // TODO: Add control-specific fields\n\x7d\n\nimpl " ++
  struct_name ++
  " \x7b\n    pub fn new() -> Self \x7b\n        Self \x7b\n            enabled: false,\n        \x7d\n    \x7d\n    \n    /// Main control loop update\n    pub fn update(&mut self, dt: f32) -> HalResult<()> \x7b\n        // TODO: Implement control logic from specifications\n        Ok(())\n    \x7d\n\x7d"

/-- The framework state: `SystematicEngineeringFramework.__init__` keeps the
configuration path, the parsed configuration, the documentation root, the
issue list of the current run, and the template registry. -/
structure SystematicEngineeringFramework where
  config_path : String
  config : Config
  docs_dir : String
  validation_issues : List ValidationIssue
  templates : String → Option Template

/-- The registry seeded in `__init__`: the two built-in template variants
under their registration names. -/
def initialTemplates : String → Option Template := fun n =>
  if n = "hal_implementation" then some HalImplementationTemplate.generate
  else if n = "control_system" then some ControlSystemTemplate.generate
  else none

/-- `SystematicEngineeringFramework.__init__` after a successful
configuration load: the documentation root is the fixed relative path
`"docs"`, the issue list starts empty, and the registry holds the two
built-in templates. -/
def mkFramework (config_path : String) (config : Config) :
    SystematicEngineeringFramework :=
  { config_path := config_path
    config := config
    docs_dir := "docs"
    validation_issues := []
    templates := initialTemplates }

/-- `add_custom_template`: registers or overwrites a template variant. -/
def SystematicEngineeringFramework.add_custom_template
    (self : SystematicEngineeringFramework) (name : String) (t : Template) :
    SystematicEngineeringFramework :=
  { self with templates := fun n => if n = name then some t else self.templates n }

/-- `get_available_generators`: the configured generator names, in declared
order. -/
def SystematicEngineeringFramework.get_available_generators
    (self : SystematicEngineeringFramework) : List String :=
  self.config.code_generators.map Prod.fst

/-- The scan loop of `_validate_traceability_ids` over one file's ID list:
an ID already in the seen set goes to the duplicate list, otherwise it
enters the seen set. -/
def scanIdList : List String × List String → List String → List String × List String
  | acc, [] => acc
  | (found, dups), s :: rest =>
    if s ∈ found then scanIdList (found, dups ++ [s]) rest
    else scanIdList (found ++ [s], dups) rest

/-- The outer loop of `_validate_traceability_ids`: scan every markdown
file's `re.findall` result, carrying the seen set across files. -/
def scanDocsForIds : List String × List String → List MDFile → List String × List String
  | acc, [] => acc
  | acc, f :: rest => scanDocsForIds (scanIdList acc (findall_ids f.content.data)) rest

/-- The issue built for one duplicated ID. -/
def mkDupIssue (dup_id : String) : ValidationIssue :=
  { severity := "error"
    category := "duplicate_id"
    message := "Duplicate traceability ID: " ++ dup_id }

/-- `_validate_traceability_ids`: scan all markdown files under the root for
ID-pattern matches and report one error-severity `duplicate_id` issue per
repeated occurrence. -/
def SystematicEngineeringFramework.validate_traceability_ids
    (self : SystematicEngineeringFramework) (fs : FileSystem) : List ValidationIssue :=
  (scanDocsForIds ([], []) (fs.mdFiles self.docs_dir)).2.map mkDupIssue

/-- The issue built for one missing cross-reference target. -/
def mkMissingFileIssue (target : String) : ValidationIssue :=
  { severity := "warning"
    category := "missing_file"
    message := "Referenced file missing: " ++ target }

/-- `_validate_cross_references`: one warning-severity `missing_file` issue
for each configured target absent under the documentation root. -/
def SystematicEngineeringFramework.validate_cross_references
    (self : SystematicEngineeringFramework) (fs : FileSystem) : List ValidationIssue :=
  self.config.cross_reference_targets.filterMap (fun target =>
    if fs.fileExists self.docs_dir target then none
    else some (mkMissingFileIssue target))

/-- `_validate_derivations`: declared but intentionally a no-op in this
version — it contributes no issues. -/
def SystematicEngineeringFramework.validate_derivations
    (_self : SystematicEngineeringFramework) : List ValidationIssue := []

/-- The issue list `validate_all` rebuilds on each run: the three checks in
source order, starting from the cleared list. -/
def SystematicEngineeringFramework.collect_issues
    (self : SystematicEngineeringFramework) (fs : FileSystem) : List ValidationIssue :=
  self.validate_traceability_ids fs ++ self.validate_cross_references fs ++
    self.validate_derivations

/-- `validate_all`: clear and rebuild the issue list, then — only under
`blocking` with at least one error-severity issue — terminate the process
(`sys.exit(1)`, modelled as `Except.error 1`); otherwise return the updated
state and the issue list. -/
def SystematicEngineeringFramework.validate_all
    (self : SystematicEngineeringFramework) (fs : FileSystem) (blocking : Bool) :
    Except Nat (SystematicEngineeringFramework × List ValidationIssue) :=
  let issues := self.collect_issues fs
  let self1 := { self with validation_issues := issues }
  if blocking && issues.any (fun i => i.severity == "error") then Except.error 1
  else Except.ok (self1, issues)

/-- The inner extraction step of `_extract_specifications` for one file:
for each requested ID present in the content, split the content on the
literal backslash-n sequence, find the first "line" containing the ID, and
join the clamped window `lines[max(0,i-2):min(len(lines),i+5)]`. -/
def extractFromFile (traceability_ids : List String) (content : String) : List String :=
  traceability_ids.filterMap (fun trace_id =>
    if strContains content trace_id then
      let lines := splitOnSeq backslashN content.data
      match lines.findIdx? (fun line => containsSeq trace_id.data line) with
      | some i =>
        let start := max 0 (i - 2)
        let stop := min lines.length (i + 5)
        some (String.mk (joinSeq backslashN ((lines.drop start).take (stop - start))))
      | none => none
    else none)

/-- `_extract_specifications`: the per-file windows accumulated over every
markdown file under the documentation root, in document-then-ID order. -/
def SystematicEngineeringFramework.extract_specifications
    (self : SystematicEngineeringFramework) (fs : FileSystem)
    (traceability_ids : List String) : List String :=
  (fs.mdFiles self.docs_dir).foldl
    (fun specs f => specs ++ extractFromFile traceability_ids f.content) []

/-- `generate_module`: resolve the generator configuration, resolve its
template (an absent `template` key defaults to `"hal_implementation"`),
extract specification context, render.  Unknown generator or template name
yields `none`. -/
def SystematicEngineeringFramework.generate_module
    (self : SystematicEngineeringFramework) (module_name : String)
    (fs : FileSystem) : Option String :=
  match List.lookup module_name self.config.code_generators with
  | none => none
  | some generator_config =>
    let template_name := generator_config.template.getD "hal_implementation"
    match self.templates template_name with
    | none => none
    | some template =>
      let specs := self.extract_specifications fs generator_config.traceability_ids
      some (template generator_config specs)

/-- The flattened list of ID-pattern occurrences over a documentation tree,
in scan order: the concatenation of each file's `re.findall` result. -/
def docIdOccurrences (docs : List MDFile) : List String :=
  (docs.map (fun f => findall_ids f.content.data)).flatten

/-! ### Helper lemmas -/

theorem sdata_append (a b : String) : (a ++ b).data = a.data ++ b.data := by
  cases a; cases b; rfl

theorem strEq_of_data {a b : String} (h : a.data = b.data) : a = b := by
  cases a; cases b; exact congrArg String.mk h

theorem strAppend_cancel_left {p a b : String} (h : p ++ a = p ++ b) : a = b := by
  have hd := congrArg String.data h
  rw [sdata_append, sdata_append] at hd
  exact strEq_of_data (List.append_cancel_left hd)

theorem mkDupIssue_inj : Function.Injective mkDupIssue := by
  intro a b h
  have hm : "Duplicate traceability ID: " ++ a = "Duplicate traceability ID: " ++ b :=
    congrArg ValidationIssue.message h
  exact strAppend_cancel_left hm

theorem mkMissingFileIssue_inj : Function.Injective mkMissingFileIssue := by
  intro a b h
  have hm : "Referenced file missing: " ++ a = "Referenced file missing: " ++ b :=
    congrArg ValidationIssue.message h
  exact strAppend_cancel_left hm

theorem mkDupIssue_ne_mkMissingFileIssue (a b : String) :
    mkDupIssue a ≠ mkMissingFileIssue b := by
  intro h
  have := congrArg ValidationIssue.severity h
  simp [mkDupIssue, mkMissingFileIssue] at this

theorem scanIdList_count (l : List String) : ∀ (found dups : List String) (x : String),
    ((scanIdList (found, dups) l).2).count x =
      dups.count x + (if x ∈ found then l.count x else l.count x - 1) := by
  induction l with
  | nil =>
    intro found dups x
    simp [scanIdList]
  | cons s rest ih =>
    intro found dups x
    by_cases hs : s ∈ found
    · by_cases hx : x ∈ found
      · by_cases hsx : s = x
        · subst hsx
          simp [scanIdList, hs, hx, ih, List.count_append, List.count_cons]
          omega
        · simp [scanIdList, hs, hx, ih, List.count_append, List.count_cons, hsx]
      · have hsx : s ≠ x := fun h => hx (h ▸ hs)
        simp [scanIdList, hs, hx, ih, List.count_append, List.count_cons, hsx]
    · by_cases hx : x ∈ found
      · have hsx : s ≠ x := fun h => hs (h ▸ hx)
        simp [scanIdList, hs, ih, List.mem_append, hx, List.count_cons, hsx]
      · by_cases hsx : s = x
        · subst hsx
          simp [scanIdList, hs, ih, List.mem_append, hx, List.count_cons]
        · have hxs : ¬ x = s := fun h => hsx h.symm
          simp [scanIdList, hs, ih, List.mem_append, hx, List.count_cons, hsx, hxs]

theorem scanIdList_append (l1 l2 : List String) : ∀ acc,
    scanIdList acc (l1 ++ l2) = scanIdList (scanIdList acc l1) l2 := by
  induction l1 with
  | nil => intro acc; rfl
  | cons s rest ih =>
    intro acc
    obtain ⟨found, dups⟩ := acc
    by_cases hs : s ∈ found <;> simp [scanIdList, hs, ih]

theorem scanDocsForIds_eq (docs : List MDFile) : ∀ acc,
    scanDocsForIds acc docs = scanIdList acc (docIdOccurrences docs) := by
  induction docs with
  | nil => intro acc; rfl
  | cons f rest ih =>
    intro acc
    simp [scanDocsForIds, docIdOccurrences, ih, scanIdList_append]

theorem validate_traceability_ids_eq (fw : SystematicEngineeringFramework)
    (fs : FileSystem) :
    fw.validate_traceability_ids fs =
      ((scanIdList ([], []) (docIdOccurrences (fs.mdFiles fw.docs_dir))).2).map mkDupIssue := by
  unfold SystematicEngineeringFramework.validate_traceability_ids
  rw [scanDocsForIds_eq]

theorem mem_validate_traceability_ids {fw : SystematicEngineeringFramework}
    {fs : FileSystem} {i : ValidationIssue}
    (h : i ∈ fw.validate_traceability_ids fs) :
    i.category = "duplicate_id" ∧ i.severity = "error" := by
  rw [validate_traceability_ids_eq] at h
  obtain ⟨d, _, rfl⟩ := List.mem_map.mp h
  exact ⟨rfl, rfl⟩

theorem mem_validate_cross_references {fw : SystematicEngineeringFramework}
    {fs : FileSystem} {i : ValidationIssue}
    (h : i ∈ fw.validate_cross_references fs) :
    i.category = "missing_file" ∧ i.severity = "warning" := by
  unfold SystematicEngineeringFramework.validate_cross_references at h
  obtain ⟨t, _, ht⟩ := List.mem_filterMap.mp h
  by_cases he : fs.fileExists fw.docs_dir t
  · simp [he] at ht
  · simp [he] at ht
    exact ht ▸ ⟨rfl, rfl⟩

theorem cross_references_count (targets : List String) (ex : String → Bool) (t : String) :
    (targets.filterMap (fun target =>
        if ex target then none else some (mkMissingFileIssue target))).count
      (mkMissingFileIssue t) =
    if ex t then 0 else targets.count t := by
  induction targets with
  | nil => simp
  | cons a rest ih =>
    by_cases ha : ex a
    · by_cases hat : a = t
      · subst hat
        simp [List.filterMap_cons, ha, ih, List.count_cons]
      · simp [List.filterMap_cons, ha, ih, List.count_cons, hat]
    · by_cases hat : a = t
      · subst hat
        simp [List.filterMap_cons, ha, ih, List.count_cons]
      · have : mkMissingFileIssue a ≠ mkMissingFileIssue t :=
          fun h => hat (mkMissingFileIssue_inj h)
        simp [List.filterMap_cons, ha, ih, List.count_cons, hat, this]

/-! ### Concrete fixtures for witnesses and counterexamples -/

/-- A file system with no markdown files and no existing targets. -/
def fsEmpty : FileSystem :=
  { mdFiles := fun _ => []
    fileExists := fun _ _ => false }

/-- Generator entry with no `template` key (exercises the silent default). -/
def gcfgNoTemplate : GeneratorConfig :=
  { target_struct := some "FooImpl", trait_impl := some "BarTrait" }

/-- Generator entry naming an unregistered template. -/
def gcfgBadTemplate : GeneratorConfig := { template := some "bogus" }

/-- A small concrete configuration for closed statements. -/
def cfgEx : Config :=
  { project_name := "RumbleDome"
    code_generators := [("boost-controller", gcfgNoTemplate), ("bad-gen", gcfgBadTemplate)]
    cross_reference_targets := ["Architecture.md", "Requirements.md"] }

/-- A framework constructed from the concrete configuration. -/
def fwEx : SystematicEngineeringFramework := mkFramework "tools/project-config.json" cfgEx

/-- A docs tree holding one file in which one ID occurs twice; every
cross-reference target exists. -/
def fsDup : FileSystem :=
  { mdFiles := fun d =>
      if d = "docs" then [{ name := "a.md", content := "T1-REQ-001 and T1-REQ-001" }] else []
    fileExists := fun _ _ => true }

/-! ### Claim theorems -/

/-- Claim C10: the control-loop scaffold's output depends only on the
`target_struct` field; the specification windows and every other
configuration field have no influence on the rendered text. -/
theorem control_template_depends_only_on_target_struct
    (c1 c2 : GeneratorConfig) (s1 s2 : List String)
    (h : c1.target_struct = c2.target_struct) :
    ControlSystemTemplate.generate c1 s1 = ControlSystemTemplate.generate c2 s2 := by
  unfold ControlSystemTemplate.generate
  rw [h]

/-- Witness for C10 at concrete configurations differing everywhere except
`target_struct`. -/
theorem control_template_depends_only_on_target_struct_witness :
    ControlSystemTemplate.generate
      { target_struct := some "AttitudeController", trait_impl := some "X",
        traceability_ids := ["T1-REQ-001"] } ["window"] =
    ControlSystemTemplate.generate
      { target_struct := some "AttitudeController", safety_requirements := ["r"] } [] :=
  control_template_depends_only_on_target_struct _ _ _ _ rfl

/-- Claim C6: `generate_module` returns a null result (and cannot raise: the
embedding is a total function into `Option`) both for an unconfigured
generator name and for a configured name whose `template` names an
unregistered template. -/
theorem generate_module_lookup_failures
    (fw : SystematicEngineeringFramework) (n : String) (fs : FileSystem) :
    (List.lookup n fw.config.code_generators = none → fw.generate_module n fs = none) ∧
    (∀ gcfg t, List.lookup n fw.config.code_generators = some gcfg →
      gcfg.template = some t → fw.templates t = none →
      fw.generate_module n fs = none) := by
  constructor
  · intro h
    unfold SystematicEngineeringFramework.generate_module
    rw [h]
  · intro gcfg t hg ht hr
    unfold SystematicEngineeringFramework.generate_module
    rw [hg]
    simp [ht, hr]

/-- Witness for C6: an unconfigured name and a configured name with an
unregistered template both yield `none` on the concrete framework. -/
theorem generate_module_lookup_failures_witness :
    fwEx.generate_module "no-such-generator" fsEmpty = none ∧
    fwEx.generate_module "bad-gen" fsEmpty = none :=
  ⟨(generate_module_lookup_failures fwEx "no-such-generator" fsEmpty).1 rfl,
   (generate_module_lookup_failures fwEx "bad-gen" fsEmpty).2 gcfgBadTemplate "bogus" rfl rfl rfl⟩

/-- Counterexample for C2 as stated: `boost-controller` is configured with
NO `template` field, yet `generate_module` succeeds (the source silently
defaults the name to `"hal_implementation"`), instead of treating the
absent field as a lookup failure. -/
theorem generate_module_absent_template_counterexample :
    (fwEx.generate_module "boost-controller" fsEmpty).isSome = true := rfl

/-- Claim C2 (amended): a `template` field naming an unregistered template
is a lookup failure, but an absent `template` field is silently defaulted
to the built-in name `"hal_implementation"` and generation proceeds with
whatever the registry holds under that name. -/
theorem generate_module_template_lookup_amended
    (fw : SystematicEngineeringFramework) (n : String) (fs : FileSystem)
    (gcfg : GeneratorConfig)
    (hg : List.lookup n fw.config.code_generators = some gcfg) :
    (∀ t, gcfg.template = some t → fw.templates t = none →
      fw.generate_module n fs = none) ∧
    (gcfg.template = none →
      fw.generate_module n fs =
        (fw.templates "hal_implementation").map (fun template =>
          template gcfg (fw.extract_specifications fs gcfg.traceability_ids))) := by
  constructor
  · intro t ht hr
    unfold SystematicEngineeringFramework.generate_module
    rw [hg]
    simp [ht, hr]
  · intro ht
    unfold SystematicEngineeringFramework.generate_module
    rw [hg]
    simp [ht]
    cases fw.templates "hal_implementation" <;> simp

/-- Witness for the amended C2: with the default registry, the entry with an
absent `template` field renders through the HAL-implementation template. -/
theorem generate_module_template_lookup_amended_witness :
    fwEx.generate_module "boost-controller" fsEmpty =
      (fwEx.templates "hal_implementation").map (fun template =>
        template gcfgNoTemplate (fwEx.extract_specifications fsEmpty gcfgNoTemplate.traceability_ids)) :=
  (generate_module_template_lookup_amended fwEx "boost-controller" fsEmpty gcfgNoTemplate rfl).2 rfl

/-- Claim C4: `validate_all` terminates the process with a non-zero status
(modelled `Except.error`) exactly when `blocking` holds and some collected
issue has error severity; non-blocking runs always return the issue list. -/
theorem validate_all_blocking_exit
    (fw : SystematicEngineeringFramework) (fs : FileSystem) (b : Bool) :
    ((∃ n, fw.validate_all fs b = Except.error n ∧ n ≠ 0) ↔
      (b = true ∧ ∃ i ∈ fw.collect_issues fs, i.severity = "error")) ∧
    fw.validate_all fs false =
      Except.ok ({ fw with validation_issues := fw.collect_issues fs },
        fw.collect_issues fs) := by
  constructor
  · unfold SystematicEngineeringFramework.validate_all
    by_cases hc : (b && (fw.collect_issues fs).any (fun i => i.severity == "error")) = true
    · rw [if_pos hc]
      obtain ⟨hb, ha⟩ := Bool.and_eq_true_iff.mp hc
      constructor
      · intro _
        refine ⟨hb, ?_⟩
        obtain ⟨i, hi, he⟩ := List.any_eq_true.mp ha
        exact ⟨i, hi, by simpa using he⟩
      · intro _
        exact ⟨1, rfl, one_ne_zero⟩
    · rw [if_neg hc]
      constructor
      · rintro ⟨n, hn, -⟩
        cases hn
      · rintro ⟨hb, i, hi, he⟩
        exact absurd (by simp [hb, List.any_eq_true]; exact ⟨i, hi, by simp [he]⟩) hc
  · unfold SystematicEngineeringFramework.validate_all
    simp

/-- Witness for C4: a tree with one duplicated ID terminates the blocking
run with status 1 and returns normally in the non-blocking run. -/
theorem validate_all_blocking_exit_witness :
    (∃ n, fwEx.validate_all fsDup true = Except.error n ∧ n ≠ 0) ∧
    fwEx.validate_all fsDup false =
      Except.ok ({ fwEx with validation_issues := fwEx.collect_issues fsDup },
        fwEx.collect_issues fsDup) :=
  ⟨(validate_all_blocking_exit fwEx fsDup true).1.mpr
      ⟨rfl, mkDupIssue "T1-REQ-001", by decide, rfl⟩,
   (validate_all_blocking_exit fwEx fsDup false).2⟩

/-- Claim C8: the issue list is cleared and rebuilt on every run, so a
second `validate_all` over the same configuration and tree returns an equal
issue list — nothing is carried over or accumulated. -/
theorem validate_all_rerun_equal
    (fw : SystematicEngineeringFramework) (fs : FileSystem)
    (fw1 : SystematicEngineeringFramework) (issues1 : List ValidationIssue)
    (h : fw.validate_all fs false = Except.ok (fw1, issues1)) :
    ∃ fw2, fw1.validate_all fs false = Except.ok (fw2, issues1) := by
  unfold SystematicEngineeringFramework.validate_all at h ⊢
  simp at h
  obtain ⟨hfw, hiss⟩ := h
  subst hfw
  subst hiss
  exact ⟨_, rfl⟩

/-- Witness for C8 on a concrete framework and tree. -/
theorem validate_all_rerun_equal_witness :
    ∃ fw2, ({ fwEx with validation_issues := fwEx.collect_issues fsDup } :
        SystematicEngineeringFramework).validate_all fsDup false =
      Except.ok (fw2, fwEx.collect_issues fsDup) :=
  validate_all_rerun_equal fwEx fsDup _ _
    (validate_all_blocking_exit fwEx fsDup false).2

/-- File systems agreeing under `"docs"` but differing elsewhere, for the
C9 witness. -/
def fsOnlyDocsA : FileSystem :=
  { mdFiles := fun d => if d = "docs" then [{ name := "a.md", content := "T1-REQ-001" }] else []
    fileExists := fun d _ => d == "docs" }

/-- Same view of `"docs"` as `fsOnlyDocsA`, different elsewhere. -/
def fsOnlyDocsB : FileSystem :=
  { mdFiles := fun d =>
      if d = "docs" then [{ name := "a.md", content := "T1-REQ-001" }]
      else [{ name := "x.md", content := "T9-ZZZ-9 T9-ZZZ-9" }]
    fileExists := fun d _ => d == "docs" }

/-- Claim C9: the documentation root is the fixed relative path `"docs"`:
set at construction independently of path and configuration, preserved by
every operation, and the only directory the validation scans and the
specification extraction read from. -/
theorem docs_dir_fixed_invariant :
    (∀ (p : String) (cfg : Config), (mkFramework p cfg).docs_dir = "docs") ∧
    (∀ (fw : SystematicEngineeringFramework) (n : String) (t : Template),
      (fw.add_custom_template n t).docs_dir = fw.docs_dir) ∧
    (∀ (fw : SystematicEngineeringFramework) (fs : FileSystem) (b : Bool)
        (fw1 : SystematicEngineeringFramework) (is1 : List ValidationIssue),
      fw.validate_all fs b = Except.ok (fw1, is1) → fw1.docs_dir = fw.docs_dir) ∧
    (∀ (p : String) (cfg : Config) (fs1 fs2 : FileSystem),
      fs1.mdFiles "docs" = fs2.mdFiles "docs" →
      fs1.fileExists "docs" = fs2.fileExists "docs" →
      (∀ b, (mkFramework p cfg).validate_all fs1 b = (mkFramework p cfg).validate_all fs2 b) ∧
      (∀ n, (mkFramework p cfg).generate_module n fs1 =
        (mkFramework p cfg).generate_module n fs2)) := by
  refine ⟨fun p cfg => rfl, fun fw n t => rfl, ?_, ?_⟩
  · intro fw fs b fw1 is1 h
    unfold SystematicEngineeringFramework.validate_all at h
    by_cases hc : (b && (fw.collect_issues fs).any (fun i => i.severity == "error")) = true
    · rw [if_pos hc] at h
      cases h
    · rw [if_neg hc] at h
      obtain ⟨h1, -⟩ := Prod.mk.injEq .. ▸ (Except.ok.injEq .. ▸ h)
      exact h1 ▸ rfl
  · intro p cfg fs1 fs2 h1 h2
    have hmd : fs1.mdFiles (mkFramework p cfg).docs_dir =
        fs2.mdFiles (mkFramework p cfg).docs_dir := h1
    have hex : fs1.fileExists (mkFramework p cfg).docs_dir =
        fs2.fileExists (mkFramework p cfg).docs_dir := h2
    have hcoll : (mkFramework p cfg).collect_issues fs1 =
        (mkFramework p cfg).collect_issues fs2 := by
      unfold SystematicEngineeringFramework.collect_issues
        SystematicEngineeringFramework.validate_traceability_ids
        SystematicEngineeringFramework.validate_cross_references
      rw [hmd, hex]
    constructor
    · intro b
      unfold SystematicEngineeringFramework.validate_all
      rw [hcoll]
    · intro n
      unfold SystematicEngineeringFramework.generate_module
        SystematicEngineeringFramework.extract_specifications
      rw [hmd]

/-- Witness for C9 on concrete file systems that agree only under `"docs"`. -/
theorem docs_dir_fixed_invariant_witness :
    (mkFramework "tools/project-config.json" cfgEx).docs_dir = "docs" ∧
    (mkFramework "tools/project-config.json" cfgEx).generate_module "boost-controller" fsOnlyDocsA =
      (mkFramework "tools/project-config.json" cfgEx).generate_module "boost-controller" fsOnlyDocsB ∧
    (mkFramework "tools/project-config.json" cfgEx).validate_all fsOnlyDocsA true =
      (mkFramework "tools/project-config.json" cfgEx).validate_all fsOnlyDocsB true :=
  ⟨docs_dir_fixed_invariant.1 "tools/project-config.json" cfgEx,
   (docs_dir_fixed_invariant.2.2.2 "tools/project-config.json" cfgEx fsOnlyDocsA fsOnlyDocsB
      rfl rfl).2 "boost-controller",
   (docs_dir_fixed_invariant.2.2.2 "tools/project-config.json" cfgEx fsOnlyDocsA fsOnlyDocsB
      rfl rfl).1 true⟩

theorem scan_dups_nil_of_nodup {l : List String} (h : l.Nodup) :
    (scanIdList ([], []) l).2 = [] := by
  rw [List.eq_nil_iff_forall_not_mem]
  intro x hx
  have hc := scanIdList_count l [] [] x
  simp at hc
  have hpos : 0 < (scanIdList ([], []) l).2.count x := List.count_pos_iff.mpr hx
  have hle : l.count x ≤ 1 := List.nodup_iff_count_le_one.mp h x
  omega

/-- Claim C3: a tree without duplicated ID occurrences yields zero
`duplicate_id` issues, and an ID occurring exactly twice anywhere in the
tree yields exactly one error-severity `duplicate_id` issue for it. -/
theorem validate_all_duplicate_id_counts
    (fw : SystematicEngineeringFramework) (fs : FileSystem)
    (fw1 : SystematicEngineeringFramework) (issues : List ValidationIssue)
    (h : fw.validate_all fs false = Except.ok (fw1, issues)) :
    ((docIdOccurrences (fs.mdFiles fw.docs_dir)).Nodup →
      issues.countP (fun i => i.category == "duplicate_id") = 0) ∧
    (∀ x, (docIdOccurrences (fs.mdFiles fw.docs_dir)).count x = 2 →
      issues.count (mkDupIssue x) = 1) := by
  have hiss : issues = fw.collect_issues fs := by
    unfold SystematicEngineeringFramework.validate_all at h
    simp at h
    exact h.2.symm
  subst hiss
  constructor
  · intro hnd
    unfold SystematicEngineeringFramework.collect_issues
    rw [List.countP_append, List.countP_append]
    rw [validate_traceability_ids_eq, scan_dups_nil_of_nodup hnd]
    have h2 : (fw.validate_cross_references fs).countP
        (fun i => i.category == "duplicate_id") = 0 := by
      rw [List.countP_eq_zero]
      intro i hi
      simp [(mem_validate_cross_references hi).1]
    simp [h2, SystematicEngineeringFramework.validate_derivations]
  · intro x hx
    unfold SystematicEngineeringFramework.collect_issues
    rw [List.count_append, List.count_append]
    rw [validate_traceability_ids_eq]
    rw [List.count_map_of_injective _ _ mkDupIssue_inj]
    have hd : ((scanIdList ([], []) (docIdOccurrences (fs.mdFiles fw.docs_dir))).2).count x = 1 := by
      have hc := scanIdList_count (docIdOccurrences (fs.mdFiles fw.docs_dir)) [] [] x
      simp at hc
      omega
    have hcr : (fw.validate_cross_references fs).count (mkDupIssue x) = 0 := by
      rw [List.count_eq_zero]
      intro hmem
      have := (mem_validate_cross_references hmem).2
      simp [mkDupIssue] at this
    simp [hd, hcr, SystematicEngineeringFramework.validate_derivations]

/-- Witness for C3: in the concrete tree `T1-REQ-001` occurs exactly twice
and exactly one `duplicate_id` issue is produced for it. -/
theorem validate_all_duplicate_id_counts_witness :
    (docIdOccurrences (fsDup.mdFiles fwEx.docs_dir)).count "T1-REQ-001" = 2 ∧
    (fwEx.collect_issues fsDup).count (mkDupIssue "T1-REQ-001") = 1 :=
  ⟨by decide,
   (validate_all_duplicate_id_counts fwEx fsDup _ _ rfl).2 "T1-REQ-001" (by decide)⟩

/-- Claim C5: when every configured cross-reference target exists, zero
`missing_file` issues are produced; each absent target contributes exactly
one warning-severity `missing_file` issue per occurrence in the target list
(cardinality preserved). -/
theorem validate_all_missing_file_counts
    (fw : SystematicEngineeringFramework) (fs : FileSystem)
    (fw1 : SystematicEngineeringFramework) (issues : List ValidationIssue)
    (h : fw.validate_all fs false = Except.ok (fw1, issues)) :
    ((∀ t ∈ fw.config.cross_reference_targets, fs.fileExists fw.docs_dir t = true) →
      issues.countP (fun i => i.category == "missing_file") = 0) ∧
    (∀ t, fs.fileExists fw.docs_dir t = false →
      issues.count (mkMissingFileIssue t) = fw.config.cross_reference_targets.count t) := by
  have hiss : issues = fw.collect_issues fs := by
    unfold SystematicEngineeringFramework.validate_all at h
    simp at h
    exact h.2.symm
  subst hiss
  constructor
  · intro hall
    unfold SystematicEngineeringFramework.collect_issues
    rw [List.countP_append, List.countP_append]
    have h1 : (fw.validate_traceability_ids fs).countP
        (fun i => i.category == "missing_file") = 0 := by
      rw [List.countP_eq_zero]
      intro i hi
      simp [(mem_validate_traceability_ids hi).1]
    have h2 : fw.validate_cross_references fs = [] := by
      unfold SystematicEngineeringFramework.validate_cross_references
      rw [List.filterMap_eq_nil_iff]
      intro t ht
      rw [if_pos (hall t ht)]
    simp [h1, h2, SystematicEngineeringFramework.validate_derivations]
  · intro t ht
    unfold SystematicEngineeringFramework.collect_issues
    rw [List.count_append, List.count_append]
    have h1 : (fw.validate_traceability_ids fs).count (mkMissingFileIssue t) = 0 := by
      rw [List.count_eq_zero]
      intro hmem
      have := (mem_validate_traceability_ids hmem).2
      simp [mkMissingFileIssue] at this
    have h2 := cross_references_count fw.config.cross_reference_targets
      (fs.fileExists fw.docs_dir) t
    rw [ht] at h2
    simp only [if_neg Bool.false_ne_true] at h2
    unfold SystematicEngineeringFramework.validate_cross_references
    simp [h1, h2, SystematicEngineeringFramework.validate_derivations]

/-- Witness for C5: with no file present, the absent target
`Architecture.md` produces exactly one `missing_file` issue; with every
target present, none are produced. -/
theorem validate_all_missing_file_counts_witness :
    (fwEx.collect_issues fsEmpty).count (mkMissingFileIssue "Architecture.md") =
      cfgEx.cross_reference_targets.count "Architecture.md" ∧
    (fwEx.collect_issues fsDup).countP (fun i => i.category == "missing_file") = 0 :=
  ⟨(validate_all_missing_file_counts fwEx fsEmpty _ _ rfl).2 "Architecture.md" rfl,
   (validate_all_missing_file_counts fwEx fsDup _ _ rfl).1 (fun _t _ => rfl)⟩

set_option maxRecDepth 8192 in
/-- Claim C7: the HAL scaffold rendered with `target_struct = "FooImpl"` and
`trait_impl = "BarTrait"` contains both identifiers verbatim, in the
structure declaration and in the capability-implementation block. -/
theorem hal_template_round_trip (config : GeneratorConfig) (specs : List String)
    (hs : config.target_struct = some "FooImpl")
    (ht : config.trait_impl = some "BarTrait") :
    ∃ a b c : String,
      HalImplementationTemplate.generate config specs =
        a ++ "pub struct FooImpl \x7b" ++ b ++ "impl BarTrait for FooImpl \x7b" ++ c := by
  refine ⟨"//! Generated HAL Implementation\n//! \n" ++
      HalImplementationTemplate.build_traceability_comment config specs ++
      "\n\nuse crate::\x7bHalResult, HalError\x7d;\n\n/// Hardware-specific implementation\n",
    "\n    initialized: bool,\n    // TODO: Add hardware-specific fields\n\x7d\n\nimpl FooImpl \x7b\n    pub fn new() -> Self \x7b\n        Self \x7b\n            initialized: false,\n        \x7d\n    \x7d\n    \n    pub fn init(&mut self) -> HalResult<()> \x7b\n        // TODO: Initialize hardware\n        self.initialized = true;\n        Ok(())\n    \x7d\n\x7d\n\n",
    "\n    // TODO: Implement trait methods based on specifications\n\x7d\n\n#[cfg(test)]\nmod tests \x7b\n    use super::*;\n    \n    #[test]\n    fn test_initialization() \x7b\n        let mut impl_instance = FooImpl::new();\n        assert!(impl_instance.init().is_ok());\n    \x7d\n\x7d", ?_⟩
  simp only [HalImplementationTemplate.generate, hs, ht, Option.getD_some]
  apply strEq_of_data
  simp only [sdata_append, List.append_assoc]
  congr 1

/-- Witness for C7 at a concrete configuration and window list. -/
theorem hal_template_round_trip_witness :
    ∃ a b c : String,
      HalImplementationTemplate.generate gcfgNoTemplate ["some window"] =
        a ++ "pub struct FooImpl \x7b" ++ b ++ "impl BarTrait for FooImpl \x7b" ++ c :=
  hal_template_round_trip gcfgNoTemplate ["some window"] rfl rfl

/-- A 20-line document (real newlines) whose first `T1-REQ-001` match is on
line 10 — the failing input for C1. -/
def c1DocContent : String :=
  "l1\nl2\nl3\nl4\nl5\nl6\nl7\nl8\nl9\nT1-REQ-001 l10\nl11\nl12\nl13\nl14\nl15\nl16\nl17\nl18\nl19\nl20"

/-- The same 20 logical lines separated by the literal backslash-n sequence
the source actually splits on. -/
def c1DocContentBS : String :=
  "l1\\nl2\\nl3\\nl4\\nl5\\nl6\\nl7\\nl8\\nl9\\nT1-REQ-001 l10\\nl11\\nl12\\nl13\\nl14\\nl15\\nl16\\nl17\\nl18\\nl19\\nl20"

/-- Docs tree holding only the real-newline document. -/
def c1Fs : FileSystem :=
  { mdFiles := fun d => if d = "docs" then [{ name := "doc.md", content := c1DocContent }] else []
    fileExists := fun _ _ => true }

/-- Docs tree holding only the backslash-n-separated document. -/
def c1FsBS : FileSystem :=
  { mdFiles := fun d => if d = "docs" then [{ name := "doc.md", content := c1DocContentBS }] else []
    fileExists := fun _ _ => true }

/-- A framework over a minimal configuration, for the C1 evaluation. -/
def c1Fw : SystematicEngineeringFramework :=
  mkFramework "tools/project-config.json" { project_name := "RumbleDome" }

/-- Claim C1 (code bug, evaluated at the failing input): on the 20-line
real-newline document with the match on line 10, the extractor returns the
ENTIRE document as the single window — `content.split('\\n')` splits on the
literal backslash-n sequence, so the whole file is one "line" — and that
window differs from the lines-8-through-15 window the claim demands.
Third conjunct: even on a document whose lines are separated by the literal
backslash-n sequence (so the split behaves as the spec imagined), the
window spans lines 8 through 14 (`lines[i-2 : i+5]` is exclusive at the
top), still not lines 8 through 15. -/
theorem extract_specifications_window_bug :
    c1Fw.extract_specifications c1Fs ["T1-REQ-001"] = [c1DocContent] ∧
    (c1DocContent == "l8\nl9\nT1-REQ-001 l10\nl11\nl12\nl13\nl14\nl15") = false ∧
    c1Fw.extract_specifications c1FsBS ["T1-REQ-001"] =
      ["l8\\nl9\\nT1-REQ-001 l10\\nl11\\nl12\\nl13\\nl14"] := by
  refine ⟨?_, by decide, ?_⟩
  · decide
  · decide
